import Mathlib

/-!
Verification of the NFL chat assistant (`src/gem.py`) against its
natural-language specification.

The Python source is shallowly embedded: JSON payloads become an inductive
`Json` type, Python dictionary/list operations become `Except`-valued
functions that model the exceptions the interpreter can raise
(`AttributeError`, `TypeError`, `IndexError`, ...), and each `try/except`
block of the source becomes a total function that catches the modelled
error and produces the source's error string.
-/

/-- JSON values as returned by `response.json()`.  Numbers are modelled as
integers (all fields the program touches are strings or small counts). -/
inductive Json where
  | null
  | bool (b : Bool)
  | num (n : Int)
  | str (s : String)
  | arr (xs : List Json)
  | obj (kvs : List (String × Json))

/-- The Python exceptions the embedded code can raise. -/
inductive PyErr where
  | attributeError (m : String)
  | typeError (m : String)
  | indexError (m : String)
  | keyError (m : String)
  | valueError (m : String)
deriving DecidableEq, Repr

/-- `str(e)` for a modelled exception. -/
def pyErrStr : PyErr → String
  | .attributeError m => m
  | .typeError m => m
  | .indexError m => m
  | .keyError m => m
  | .valueError m => m

/-- Python truthiness of a JSON value (`if not x`). -/
def pyTruthy : Json → Bool
  | .null => false
  | .bool b => b
  | .num n => n != 0
  | .str s => !s.isEmpty
  | .arr xs => !xs.isEmpty
  | .obj kvs => !kvs.isEmpty

/-- `d.get(k, default)`: returns the stored value (even if `None`) when the
key is present, the default when absent, and raises `AttributeError` when
the receiver is not a dict. -/
def pyGet (j : Json) (k : String) (dflt : Json) : Except PyErr Json :=
  match j with
  | .obj kvs =>
    match kvs.lookup k with
    | some v => .ok v
    | none => .ok dflt
  | _ => .error (.attributeError "object has no attribute get")

/-- `x[i]` for a non-negative literal index: list indexing with
`IndexError` past the end, string indexing yielding a one-character
string, `KeyError` on dicts (whose keys here are strings), `TypeError`
otherwise. -/
def pyIndex (j : Json) (i : Nat) : Except PyErr Json :=
  match j with
  | .arr xs =>
    match xs.get? i with
    | some v => .ok v
    | none => .error (.indexError "list index out of range")
  | .str s =>
    match s.data.get? i with
    | some c => .ok (.str (String.mk [c]))
    | none => .error (.indexError "string index out of range")
  | .obj _ => .error (.keyError "key not found")
  | _ => .error (.typeError "object is not subscriptable")

/-- `len(x)`: defined for lists, strings and dicts, `TypeError` otherwise. -/
def pyLen (j : Json) : Except PyErr Nat :=
  match j with
  | .arr xs => .ok xs.length
  | .str s => .ok s.length
  | .obj kvs => .ok kvs.length
  | _ => .error (.typeError "object has no len")

/-- `for x in j`: lists yield their elements, strings their characters,
dicts their keys; other values raise `TypeError`. -/
def pyIter (j : Json) : Except PyErr (List Json) :=
  match j with
  | .arr xs => .ok xs
  | .str s => .ok (s.data.map fun c => .str (String.mk [c]))
  | .obj kvs => .ok (kvs.map fun kv => .str kv.1)
  | _ => .error (.typeError "object is not iterable")

/-- `x[:n]` slicing for lists and strings, `TypeError` otherwise. -/
def pySlice (j : Json) (n : Nat) : Except PyErr Json :=
  match j with
  | .arr xs => .ok (.arr (xs.take n))
  | .str s => .ok (.str (String.mk (s.data.take n)))
  | _ => .error (.typeError "unhashable slice")

/-- A string method such as `.lower()` called on a JSON value: succeeds on
strings, raises `AttributeError` otherwise. -/
def asPyStr (j : Json) : Except PyErr String :=
  match j with
  | .str s => .ok s
  | _ => .error (.attributeError "object has no string attribute")

/-- ASCII lowering of one character, as `str.lower` acts on the ASCII
range (all strings the program compares are ASCII). -/
def pyLowerChar (c : Char) : Char :=
  if 'A' ≤ c ∧ c ≤ 'Z' then Char.ofNat (c.toNat + 32) else c

/-- `s.lower()` on ASCII strings. -/
def pyLower (s : String) : String := String.mk (s.data.map pyLowerChar)

/-- Substring containment on character lists (`sub in s`). -/
def listContains (pat : List Char) : List Char → Bool
  | [] => pat.isEmpty
  | c :: cs => pat.isPrefixOf (c :: cs) || listContains pat cs

/-- Leftmost, non-overlapping replacement on character lists; the fuel is
initialized to the length of the list. -/
def listReplaceAux (pat repl : List Char) : Nat → List Char → List Char
  | _, [] => []
  | 0, cs => cs
  | fuel+1, c :: cs =>
    if pat.isPrefixOf (c :: cs) then
      repl ++ listReplaceAux pat repl fuel ((c :: cs).drop pat.length)
    else
      c :: listReplaceAux pat repl fuel cs

/-- `s.replace(pat, repl)`.  The program only calls this with non-empty
patterns, so the empty-pattern case returns `s` unchanged. -/
def pyReplace (s pat repl : String) : String :=
  if pat.data.isEmpty then s
  else String.mk (listReplaceAux pat.data repl.data s.data.length s.data)

/-- `sep.join` over strings already checked to be strings. -/
def pyJoinStr (sep : String) : List String → String
  | [] => ""
  | [s] => s
  | s :: rest => s ++ sep ++ pyJoinStr sep rest

/-- Python `str(x)` of a JSON value, as used by f-string interpolation. -/
def pyStr : Json → String
  | .null => "None"
  | .bool b => if b then "True" else "False"
  | .num n => toString n
  | .str s => s
  | .arr _ => "[...]"
  | .obj _ => "{...}"

/-- The whitespace characters `str.strip` removes (ASCII model). -/
def isPySpace (c : Char) : Bool :=
  c = ' ' || c = '\t' || c = '\n' || c = '\x0d' || c = '\x0b' || c = '\x0c'

/-- `s.strip()`. -/
def pyStrip (s : String) : String :=
  String.mk (((s.data.dropWhile isPySpace).reverse.dropWhile isPySpace).reverse)

/-- `sub in s` for strings: substring containment. -/
def pyInStr (sub s : String) : Bool :=
  listContains sub.data s.data

-- ------------------ get_nfl_scoreboard: summarization ------------------

/-- The body of the per-event branch of `get_nfl_scoreboard`: one line of
the scoreboard summary (gem.py lines 50-66). -/
def scoreboard_event_line (event : Json) : Except PyErr String := do
  let game_name ← pyGet event "name" (.str "Unknown matchup")
  let status ← pyGet event "status" (.obj [])
  let statusType ← pyGet status "type" (.obj [])
  let status_detail ← pyGet statusType "detail" (.str "Status unknown")
  let comps ← pyGet event "competitions" (.arr [.obj []])
  let competition ← pyIndex comps 0
  let competitors ← pyGet competition "competitors" (.arr [])
  let n ← pyLen competitors
  if n ≥ 2 then
    let c1 ← pyIndex competitors 1
    let t1 ← pyGet c1 "team" (.obj [])
    let away_team ← pyGet t1 "displayName" (.str "Team A")
    let away_score ← pyGet c1 "score" (.str "0")
    let c0 ← pyIndex competitors 0
    let t0 ← pyGet c0 "team" (.obj [])
    let home_team ← pyGet t0 "displayName" (.str "Team B")
    let home_score ← pyGet c0 "score" (.str "0")
    let a := pyStr away_team
    let as0 := pyStr away_score
    let h := pyStr home_team
    let hs := pyStr home_score
    let sd := pyStr status_detail
    pure s!"🏈 {a} {as0} @ {h} {hs} - {sd}"
  else
    let g := pyStr game_name
    let sd := pyStr status_detail
    pure s!"🏈 {g} - {sd}"

/-- The `try`-body of `get_nfl_scoreboard` after `response.json()`
succeeded (gem.py lines 45-68). -/
def scoreboard_body (data : Json) : Except PyErr String := do
  let eventsJ ← pyGet data "events" (.arr [])
  if !pyTruthy eventsJ then
    pure "No games scheduled or completed recently. The regular season has ended."
  else
    let events ← pyIter eventsJ
    let results ← events.mapM scoreboard_event_line
    pure (pyJoinStr "\n" results)

/-- `get_nfl_scoreboard`'s summarization together with its
`except Exception` clause (gem.py lines 72-73): every modelled exception is
caught and rendered as an error string, so no error escapes. -/
def get_nfl_scoreboard_summary (data : Json) : Except PyErr String :=
  match scoreboard_body data with
  | .ok s => .ok s
  | .error e => .ok ("Unexpected error processing scoreboard: " ++ pyErrStr e)

-- ------------------ get_league_leaders: summarization ------------------

/-- The category-name normalization table of `get_league_leaders`
(gem.py lines 92-110). -/
def category_mapping : List (String × String) :=
  [("passing yards", "passingYards"),
   ("passing touchdowns", "passingTouchdowns"),
   ("passing tds", "passingTouchdowns"),
   ("passer rating", "passingRating"),
   ("qbr", "passingRating"),
   ("rushing yards", "rushingYards"),
   ("rushing touchdowns", "rushingTouchdowns"),
   ("rushing tds", "rushingTouchdowns"),
   ("receiving yards", "receivingYards"),
   ("receiving touchdowns", "receivingTouchdowns"),
   ("receiving tds", "receivingTouchdowns"),
   ("receptions", "receptions"),
   ("catches", "receptions"),
   ("picks", "interceptions"),
   ("ints", "interceptions"),
   ("sacks", "sacks"),
   ("tackles", "tackles")]

/-- `category_mapping.get(category.lower(), category)` (gem.py line 112). -/
def normalize_category (category : String) : String :=
  (category_mapping.lookup (pyLower category)).getD category

/-- `limit = min(max(1, limit), 25)` (gem.py line 113). -/
def leaders_clamp (limit : Int) : Int := min (max 1 limit) 25

/-- First search loop of `get_league_leaders` (gem.py lines 127-130):
exact match on the category name after lowering and removing spaces;
on a match, `cat_data.get("leaders", [])`, else `None` (modelled `.null`). -/
def leaders_find_exact (norm : String) : List Json → Except PyErr Json
  | [] => .ok .null
  | c :: cs => do
    let nameJ ← pyGet c "name" (.str "")
    let name ← asPyStr nameJ
    if pyReplace (pyLower name) " " "" = pyLower norm then
      pyGet c "leaders" (.arr [])
    else
      leaders_find_exact norm cs

/-- Second search loop (gem.py lines 134-137): substring match. -/
def leaders_find_sub (norm : String) : List Json → Except PyErr Json
  | [] => .ok .null
  | c :: cs => do
    let nameJ ← pyGet c "name" (.str "")
    let name ← asPyStr nameJ
    if pyInStr (pyLower norm) (pyLower name) then
      pyGet c "leaders" (.arr [])
    else
      leaders_find_sub norm cs

/-- A `str.join` element: non-strings raise `TypeError`. -/
def asPyStrJoin (j : Json) : Except PyErr String :=
  match j with
  | .str s => .ok s
  | _ => .error (.typeError "sequence item: expected str instance")

/-- `sep.join(xs)`. -/
def pyJoin (sep : String) (xs : List Json) : Except PyErr String := do
  let ss ← xs.mapM asPyStrJoin
  pure (pyJoinStr sep ss)

/-- The three fields of one leaders-ranking line (gem.py lines 146-148):
player name, team abbreviation, stat value, each with its default. -/
def format_leader_fields (leader : Json) : Except PyErr (String × String × String) := do
  let athlete ← pyGet leader "athlete" (.obj [])
  let player_name ← pyGet athlete "displayName" (.str "Unknown Player")
  let teamJ ← pyGet leader "team" (.obj [])
  let team_name ← pyGet teamJ "abbreviation" (.str "N/A")
  let dfltVal ← pyGet leader "value" (.str "N/A")
  let stat_value ← pyGet leader "displayValue" dfltVal
  pure (pyStr player_name, pyStr team_name, pyStr stat_value)

/-- One line of the leaders ranking (gem.py line 149), at 1-based rank
`i`: `f"{i}. {player_name} ({team_name}): {stat_value}"`. -/
def format_leader_line (i : Nat) (leader : Json) : Except PyErr String := do
  let f ← format_leader_fields leader
  pure (toString i ++ ". " ++ (f.1 ++ " (" ++ f.2.1 ++ "): " ++ f.2.2))

/-- `for i, leader in enumerate(target_leaders[:limit], 1)` (gem.py
lines 144-149), starting at rank `start`. -/
def format_leader_lines (start : Nat) : List Json → Except PyErr (List String)
  | [] => .ok []
  | l :: ls => do
    let line ← format_leader_line start l
    let rest ← format_leader_lines (start + 1) ls
    pure (line :: rest)

/-- The display form of the category name (gem.py line 151). -/
def leaders_category_display (norm : String) : String :=
  pyReplace (pyReplace (pyReplace norm "passing" "Passing ") "rushing" "Rushing ")
    "receiving" "Receiving "

/-- The `try`-body of `get_league_leaders` after `response.json()`
succeeded (gem.py lines 124-153). -/
def leaders_body (data : Json) (category norm : String) (limit : Int) :
    Except PyErr String := do
  let allCatsJ ← pyGet data "leaders" (.arr [])
  let cats ← pyIter allCatsJ
  let t1 ← leaders_find_exact norm cats
  let target ← if pyTruthy t1 then pure t1 else leaders_find_sub norm cats
  if !pyTruthy target then
    let available ← cats.mapM (fun c => pyGet c "displayName" (.str ""))
    let joined ← pyJoin ", " (available.take 5)
    pure ("Could not find leaders for '" ++ category ++
      "'. Try one of these: " ++ joined)
  else
    let sliced ← pySlice target limit.toNat
    let targetList ← pyIter sliced
    let results ← format_leader_lines 1 targetList
    let cd := leaders_category_display norm
    let lim := toString limit
    let header := s!"📊 Top {lim} NFL Leaders - {cd}\n" ++
      String.mk (List.replicate 50 '=')
    pure (header ++ "\n" ++ pyJoinStr "\n" results)

/-- The summarization part of `get_league_leaders` (normalization, limit
clamping, and the `try`-body on a decoded payload) together with its
`except Exception` clause (gem.py lines 157-158). -/
def get_league_leaders_summary (data : Json) (category : String) (limit0 : Int) :
    Except PyErr String :=
  match leaders_body data category (normalize_category category)
      (leaders_clamp limit0) with
  | .ok s => .ok s
  | .error e => .ok ("Unexpected error processing leaders data: " ++ pyErrStr e)

-- ------------------ HTTP layer and full fetchers ------------------

/-- An HTTP response: status code and decoded JSON body (`none` when
`response.json()` raises a decode error). -/
structure HttpResp where
  status : Int
  body : Option Json

/-- The outcome of one `requests.get`: a response, or a raised
`requests.exceptions.RequestException` (connection error, timeout, ...). -/
inductive NetAnswer where
  | resp (r : HttpResp)
  | raiseExn (m : String)

/-- The network environment: the answer to each GET request, keyed by URL
and query parameters. -/
def Net := String → List (String × String) → NetAnswer

/-- `str(e)` of the `HTTPError` raised by `raise_for_status`. -/
def httpStatusMsg (status : Int) : String :=
  toString status ++ " Error for url"

/-- `str(e)` when `response.json()` fails to decode. -/
def jsonDecodeErrMsg : String := "Expecting value"

def scoreboard_url : String :=
  "https://site.api.espn.com/apis/site/v2/sports/football/nfl/scoreboard"

def leaders_url : String :=
  "https://site.api.espn.com/apis/site/v2/sports/football/nfl/leaders"

def teams_url : String :=
  "https://site.api.espn.com/apis/site/v2/sports/football/nfl/teams"

/-- `f"https://site.api.espn.com/.../teams/{team_id}"` (gem.py line 200). -/
def team_detail_url (team_id : Json) : String :=
  teams_url ++ "/" ++ pyStr team_id

def search_url : String := "https://site.api.espn.com/apis/common/v3/search"

/-- `f"https://site.api.espn.com/.../athletes/{player_id}"` (gem.py 268). -/
def athlete_url (player_id : Json) : String :=
  "https://site.api.espn.com/apis/site/v2/sports/football/nfl/athletes/" ++
    pyStr player_id

/-- `get_nfl_scoreboard` (gem.py lines 34-73) run against a network
environment; the second component counts the GET requests issued. -/
def get_nfl_scoreboard_run (net : Net) : String × Nat :=
  (match net scoreboard_url [] with
   | .raiseExn m => "Error fetching scoreboard data: " ++ m
   | .resp r =>
     if 400 ≤ r.status then
       "Error fetching scoreboard data: " ++ httpStatusMsg r.status
     else
       match r.body with
       | none => "Error fetching scoreboard data: " ++ jsonDecodeErrMsg
       | some data =>
         match scoreboard_body data with
         | .ok s => s
         | .error e => "Unexpected error processing scoreboard: " ++ pyErrStr e,
   1)

/-- `get_league_leaders` (gem.py lines 76-158) run against a network
environment; the second component counts the GET requests issued. -/
def get_league_leaders_run (net : Net) (category : String) (limit0 : Int) :
    String × Nat :=
  (match net leaders_url [("limit", toString (leaders_clamp limit0))] with
   | .raiseExn m => "Error fetching league leaders: " ++ m
   | .resp r =>
     if 400 ≤ r.status then
       "Error fetching league leaders: " ++ httpStatusMsg r.status
     else
       match r.body with
       | none => "Error fetching league leaders: " ++ jsonDecodeErrMsg
       | some data =>
         match leaders_body data category (normalize_category category)
             (leaders_clamp limit0) with
         | .ok s => s
         | .error e =>
           "Unexpected error processing leaders data: " ++ pyErrStr e,
   1)

-- ------------------ get_team_stats ------------------

/-- `data.get("sports", [{}])[0].get("leagues", [{}])[0].get("teams", [])`
(gem.py line 179). -/
def teams_extract (data : Json) : Except PyErr Json := do
  let sports ← pyGet data "sports" (.arr [.obj []])
  let s0 ← pyIndex sports 0
  let leagues ← pyGet s0 "leagues" (.arr [.obj []])
  let l0 ← pyIndex leagues 0
  pyGet l0 "teams" (.arr [])

/-- The team search loop of `get_team_stats` (gem.py lines 185-193):
returns the matched `team` dict, or `none` when no team matches. -/
def team_find (search_term : String) : List Json → Except PyErr (Option Json)
  | [] => .ok none
  | tobj :: rest => do
    let team ← pyGet tobj "team" (.obj [])
    let nameJ ← pyGet team "displayName" (.str "")
    let name ← asPyStr nameJ
    let abbrJ ← pyGet team "abbreviation" (.str "")
    let abbr ← asPyStr abbrJ
    let locJ ← pyGet team "location" (.str "")
    let loc ← asPyStr locJ
    if pyInStr search_term (pyLower name) || search_term = pyLower abbr ||
        pyInStr search_term (pyLower loc) then
      .ok (some team)
    else
      team_find search_term rest

/-- Python `int(x)`. -/
def pyToInt (j : Json) : Except PyErr Int :=
  match j with
  | .num n => .ok n
  | .bool b => .ok (if b then 1 else 0)
  | .str s =>
    match (pyStrip s).toInt? with
    | some n => .ok n
    | none => .error (.valueError "invalid literal for int")
  | _ => .error (.typeError "int argument must be a string or a number")

/-- Processing of the team-detail payload (gem.py lines 205-221). -/
def team_detail_summary (detail_data : Json) (team_name : String) :
    Except PyErr String := do
  let team_info ← pyGet detail_data "team" (.obj [])
  let team_display ← pyGet team_info "displayName" (.str team_name)
  let recContainer ← pyGet team_info "record" (.obj [])
  let items ← pyGet recContainer "items" (.arr [.obj []])
  let record ← pyIndex items 0
  let statsW ← pyGet record "stats" (.arr [.obj []])
  let w0 ← pyIndex statsW 0
  let wins ← pyGet w0 "value" (.num 0)
  let statsLenJ ← pyGet record "stats" (.arr [])
  let slen ← pyLen statsLenJ
  let losses ←
    if slen > 1 then do
      let statsL ← pyGet record "stats" (.arr [.obj []])
      let l1 ← pyIndex statsL 1
      pyGet l1 "value" (.num 0)
    else
      pure (.num 0)
  let td := pyStr team_display
  let line1 := s!"🏈 {td}\n" ++ String.mk (List.replicate 50 '=') ++ "\n"
  let wi ← pyToInt wins
  let li ← pyToInt losses
  let wiS := toString wi
  let liS := toString li
  let line2 := s!"Record: {wiS}-{liS}\n"
  let next_event ← pyGet team_info "nextEvent" .null
  if pyTruthy next_event then do
    let ne0 ← pyIndex next_event 0
    let neName ← pyGet ne0 "name" (.str "TBD")
    let nn := pyStr neName
    pure (line1 ++ line2 ++ s!"\nNext Game: {nn}")
  else
    pure (line1 ++ line2)

/-- The error string of `get_team_stats`'s `except Exception` clause
(gem.py line 224). -/
def team_stats_err (team_name m : String) : String :=
  "Error fetching team stats for '" ++ team_name ++ "': " ++ m

/-- `get_team_stats` (gem.py lines 161-224) run against a network
environment; the second component counts the GET requests issued.  A
second request (to the team-detail endpoint) is sent exactly when the
first payload contains a matching team. -/
def get_team_stats_run (net : Net) (team_name : String) : String × Nat :=
  match net teams_url [] with
  | .raiseExn m => (team_stats_err team_name m, 1)
  | .resp r =>
    if 400 ≤ r.status then (team_stats_err team_name (httpStatusMsg r.status), 1)
    else
      match r.body with
      | none => (team_stats_err team_name jsonDecodeErrMsg, 1)
      | some data =>
        match (do
          let teamsJ ← teams_extract data
          let teams ← pyIter teamsJ
          team_find (pyLower team_name) teams) with
        | .error e => (team_stats_err team_name (pyErrStr e), 1)
        | .ok none =>
          ("Could not find team matching '" ++ team_name ++
            "'. Please check the team name and try again.", 1)
        | .ok (some target_team) =>
          match pyGet target_team "id" .null with
          | .error e => (team_stats_err team_name (pyErrStr e), 1)
          | .ok team_id =>
            match net (team_detail_url team_id) [] with
            | .raiseExn m => (team_stats_err team_name m, 2)
            | .resp r2 =>
              match r2.body with
              | none => (team_stats_err team_name jsonDecodeErrMsg, 2)
              | some detail_data =>
                match team_detail_summary detail_data team_name with
                | .ok s => (s, 2)
                | .error e => (team_stats_err team_name (pyErrStr e), 2)

-- ------------------ search_player_stats ------------------

/-- One pass of the stats loop of `search_player_stats` (gem.py lines
277-281).  An exception mid-loop aborts the loop but keeps the lines
already appended (the surrounding bare `except: pass` swallows it). -/
def stats_lines_loop : List Json → String
  | [] => ""
  | stat :: rest =>
    match (do
      let nameJ ← pyGet stat "displayName" (.str "")
      let valJ ← pyGet stat "displayValue" (.str "")
      pure (nameJ, valJ)) with
    | .error _ => ""
    | .ok (nameJ, valJ) =>
      (if pyTruthy nameJ && pyTruthy valJ then
        let n := pyStr nameJ
        let v := pyStr valJ
        s!"  • {n}: {v}\n"
      else "") ++ stats_lines_loop rest

/-- The inner `try` of `search_player_stats` (gem.py lines 267-283): the
suffix appended to the output after the second request.  Every failure is
swallowed by the bare `except`, keeping whatever was appended so far. -/
def player_stats_suffix (net : Net) (player_id : Json) : String :=
  match net (athlete_url player_id) [] with
  | .raiseExn _ => ""
  | .resp r =>
    match r.body with
    | none => ""
    | some stats_data =>
      match (do
        let ath ← pyGet stats_data "athlete" (.obj [])
        pyGet ath "statistics" (.arr [])) with
      | .error _ => ""
      | .ok athlete_stats =>
        if pyTruthy athlete_stats then
          "\n2025 Season Stats:\n" ++
            (match pySlice athlete_stats 5 >>= pyIter with
             | .error _ => ""
             | .ok stats => stats_lines_loop stats)
        else ""

/-- The error string of `search_player_stats`'s outer `except` clause
(gem.py line 288). -/
def player_search_err (player_name m : String) : String :=
  "Error searching for player '" ++ player_name ++ "': " ++ m

/-- `search_player_stats` (gem.py lines 227-288) run against a network
environment; the second component counts the GET requests issued.  A
second request (to the athlete endpoint) is sent exactly when the first
payload yields a player with a truthy `id`. -/
def search_player_stats_run (net : Net) (player_name : String) : String × Nat :=
  match net search_url
      [("query", player_name), ("limit", "5"), ("type", "player"),
       ("sport", "football"), ("league", "nfl")] with
  | .raiseExn m => (player_search_err player_name m, 1)
  | .resp r =>
    if 400 ≤ r.status then
      (player_search_err player_name (httpStatusMsg r.status), 1)
    else
      match r.body with
      | none => (player_search_err player_name jsonDecodeErrMsg, 1)
      | some data =>
        match (do
          let resultsJ ← pyGet data "results" (.arr [])
          if !pyTruthy resultsJ then
            pure (Sum.inl ())
          else do
            let player ← pyIndex resultsJ 0
            let player_display ← pyGet player "displayName" (.str player_name)
            let player_id ← pyGet player "id" .null
            let teamJ ← pyGet player "team" (.obj [])
            let team ← pyGet teamJ "abbreviation" (.str "N/A")
            let posJ ← pyGet player "position" (.obj [])
            let position ← pyGet posJ "abbreviation" (.str "N/A")
            pure (Sum.inr (player_display, player_id, team, position))) with
        | .error e => (player_search_err player_name (pyErrStr e), 1)
        | .ok (Sum.inl ()) =>
          ("No player found matching '" ++ player_name ++
            "'. Please check the spelling and try again.", 1)
        | .ok (Sum.inr (pd, pid, team, pos)) =>
          let pdS := pyStr pd
          let tS := pyStr team
          let pS := pyStr pos
          let output := s!"👤 {pdS}\n" ++ String.mk (List.replicate 50 '=') ++
            "\n" ++ s!"Team: {tS} | Position: {pS}\n"
          if pyTruthy pid then
            (output ++ player_stats_suffix net pid, 2)
          else
            (output, 1)

-- ------------------ configuration and startup ------------------

/-- The Gemini client object (gem.py line 18). -/
structure GenaiClient where
  api_key : String
deriving DecidableEq, Repr

/-- Module-level configuration loading (gem.py lines 13-18):
`API_KEY = os.getenv("API_KEY")`, a `ValueError` when the key is unset or
empty, otherwise a client initialized with exactly that key. -/
def load_api_key (env : Option String) : Except String GenaiClient :=
  match env with
  | none => .error "❌ Missing API_KEY in .env file."
  | some k =>
    if k = "" then .error "❌ Missing API_KEY in .env file."
    else .ok { api_key := k }

/-- The part of the chat-session configuration the claims are about
(gem.py lines 312-328). -/
structure ChatConfig where
  model : String
  tools : List String
  automatic_function_calling_disabled : Bool
deriving DecidableEq, Repr

/-- The configuration `run_nfl_chat` creates its chat session with
(gem.py lines 312-328): the four fetchers registered as tools and
automatic function calling enabled (`disable=False`). -/
def nfl_chat_config : ChatConfig :=
  { model := "gemini-2.0-flash-exp"
    tools := ["get_nfl_scoreboard", "get_league_leaders", "get_team_stats",
              "search_player_stats"]
    automatic_function_calling_disabled := false }

-- ------------------ REPL loop ------------------

/-- What one loop iteration of `run_nfl_chat` does with a raw input line
(gem.py lines 332-345). -/
inductive ReplAction where
  | skip
  | exitChat
  | send (msg : String)
deriving DecidableEq, Repr

/-- The sentinel words of the session-ending check (gem.py line 337). -/
def sentinel_words : List String := ["exit", "quit", "bye", "goodbye"]

/-- The routing of one raw input line (gem.py lines 332-342): strip, skip
when empty, end the session on a sentinel word (case-insensitively),
otherwise send the stripped text to the LLM unchanged. -/
def repl_route (raw : String) : ReplAction :=
  let user_input := pyStrip raw
  if user_input = "" then .skip
  else if sentinel_words.contains (pyLower user_input) then .exitChat
  else .send user_input

/-- What one iteration prints (gem.py lines 345 and 351-352). -/
inductive ReplEvent where
  | reply (s : String)
  | errorMsg (s : String)
deriving DecidableEq, Repr

/-- The chat loop of `run_nfl_chat` (gem.py lines 330-352) run over a list
of input lines, with `llm` the outcome of each `chat.send_message` call
(`.error` = the call raised).  Returns the printed events and whether the
loop ended via the sentinel branch (`break`); exhausting the input list
ends the recursion with `false`. -/
def repl_run (llm : String → Except String String) :
    List String → List ReplEvent × Bool
  | [] => ([], false)
  | line :: rest =>
    match repl_route line with
    | .skip => repl_run llm rest
    | .exitChat => ([], true)
    | .send m =>
      match llm m with
      | .ok r =>
        let p := repl_run llm rest
        (.reply r :: p.1, p.2)
      | .error e =>
        let p := repl_run llm rest
        (.errorMsg e :: p.1, p.2)

/-- The whole program (gem.py lines 13-18 and 361-362): configuration
loading at import time, then `run_nfl_chat`.  A `ValueError` from the
configuration check aborts before the chat session is created and before
any message is processed. -/
def nfl_program (env : Option String) (llm : String → Except String String)
    (inputs : List String) :
    Except String (GenaiClient × ChatConfig × (List ReplEvent × Bool)) :=
  match load_api_key env with
  | .error e => .error e
  | .ok client => .ok (client, nfl_chat_config, repl_run llm inputs)

-- ------------------ components of the earlier iterations ------------------

/-- Modelled from the spec: the outcome of one LLM call in the earlier
iterations, which distinguish a rate-limit failure from other failures
("graceful degradation when the LLM call is rate-limited").  The code of
those iterations is not under `src/`; only the final, tool-calling
iteration (`gem.py`) is. -/
inductive LlmOutcome where
  | ok (reply : String)
  | rateLimited
  | otherError (msg : String)
deriving DecidableEq, Repr

/-- Modelled from the spec: the "static canned responses" of the fallback
answer bank, keyed by a keyword looked for in the user's text.  The code
of the bank's iteration is not under `src/`. -/
def fallback_bank : List (String × String) :=
  [("super bowl",
    "Super Bowl LX is scheduled for February 8, 2026 at Levi's Stadium."),
   ("score",
    "I cannot reach live scores right now; please check the league scoreboard."),
   ("leaders",
    "League leaderboards cover passing, rushing and receiving yards and touchdowns.")]

/-- Modelled from the spec: the canned answer used when no bank keyword
matches the user's text. -/
def default_canned : String :=
  "I am temporarily rate-limited; please try again in a moment."

/-- Modelled from the spec: picking a canned response for the user's text
from the static bank. -/
def canned_response (user : String) : String :=
  match fallback_bank.find? (fun kv => pyInStr kv.1 (pyLower user)) with
  | some kv => kv.2
  | none => default_canned

/-- Modelled from the spec: how an earlier iteration turns the LLM-call
outcome into the printed answer.  The second component records whether the
canned bank was used ("static canned responses used only when the LLM call
fails with a rate-limit error"). -/
def answer_with_fallback (outcome : LlmOutcome) (user : String) : String × Bool :=
  match outcome with
  | .ok r => (r, false)
  | .rateLimited => (canned_response user, true)
  | .otherError m => ("Error: " ++ m, false)

/-- Modelled from the spec: the "small fixed set of data needs" of the
keyword intent classifier of the earlier iterations ("scoreboard,
passing/rushing/receiving leaders, team stats, player search, or none").
The classifier's code is not under `src/`. -/
inductive DataNeed where
  | scoreboard
  | passingLeaders
  | rushingLeaders
  | receivingLeaders
  | teamStats
  | playerSearch
  | noNeed
deriving DecidableEq, Repr

/-- Modelled from the spec: the keyword intent classifier ("keyword-matches
user text to one of a small fixed set of data needs"). -/
def classify_intent (text : String) : DataNeed :=
  let t := pyLower text
  if pyInStr "score" t || pyInStr "schedule" t then .scoreboard
  else if pyInStr "passing" t then .passingLeaders
  else if pyInStr "rushing" t then .rushingLeaders
  else if pyInStr "receiving" t then .receivingLeaders
  else if pyInStr "team" t then .teamStats
  else if pyInStr "player" t then .playerSearch
  else .noNeed

/-- The live-data fetch an earlier iteration performs for one input. -/
inductive FetchCall where
  | scoreboardFetch
  | leadersFetch (category : String)
  | teamFetch (team : String)
  | playerFetch (player : String)
deriving DecidableEq, Repr

/-- Modelled from the spec: the fetch performed for each classified data
need (the per-turn pipeline "read → classify → fetch/summarize → prompt"). -/
def fetch_for_need (text : String) : DataNeed → Option FetchCall
  | .scoreboard => some .scoreboardFetch
  | .passingLeaders => some (.leadersFetch "passing yards")
  | .rushingLeaders => some (.leadersFetch "rushing yards")
  | .receivingLeaders => some (.leadersFetch "receiving yards")
  | .teamStats => some (.teamFetch text)
  | .playerSearch => some (.playerFetch text)
  | .noNeed => none

/-- Modelled from the spec: the routing of one input in an earlier
iteration, through the classifier. -/
def route_fetch (text : String) : Option FetchCall :=
  fetch_for_need text (classify_intent text)

-- ------------------ concrete environments ------------------

/-- A scoreboard payload with one event whose two competitors carry none
of the expected fields. -/
def sbPayload : Json :=
  .obj [("events", .arr [.obj [("competitions",
    .arr [.obj [("competitors", .arr [.obj [], .obj []])]])]])]

/-- A network in which the scoreboard endpoint answers `sbPayload`. -/
def sbNetOneGame : Net := fun url _ =>
  if url = scoreboard_url then .resp ⟨200, some sbPayload⟩
  else .resp ⟨404, none⟩

/-- The `team` object of the one team in `teamsPayload`. -/
def patriotsTeam : Json :=
  .obj [("displayName", .str "New England Patriots"),
        ("abbreviation", .str "NE"),
        ("location", .str "New England"),
        ("id", .str "17")]

/-- A teams payload containing one team matching "patriots". -/
def teamsPayload : Json :=
  .obj [("sports", .arr [.obj [("leagues", .arr [.obj [("teams",
    .arr [.obj [("team", patriotsTeam)]])]])]])]

/-- A network in which every endpoint answers `teamsPayload`. -/
def teamNetPatriots : Net := fun _ _ => .resp ⟨200, some teamsPayload⟩

/-- A leaders payload with one category of two leaders without fields. -/
def leadersPayload : Json :=
  .obj [("leaders", .arr [.obj [("name", .str "passingYards"),
    ("leaders", .arr [.obj [], .obj []])]])]

/-- A network in which the leaders endpoint answers `leadersPayload`. -/
def leadersNet : Net := fun url _ =>
  if url = leaders_url then .resp ⟨200, some leadersPayload⟩
  else .resp ⟨404, none⟩

/-- An LLM oracle that echoes its prompt. -/
def llmEcho : String → Except String String := fun m => .ok ("ok:" ++ m)

/-- Fuel-bounded JSON serialization (the payloads considered are shallow,
so the fuel is never exhausted in practice). -/
def renderJsonFuel : Nat → Json → String
  | 0, _ => ""
  | _+1, .null => "null"
  | _+1, .bool b => if b then "true" else "false"
  | _+1, .num n => toString n
  | _+1, .str s => "\"" ++ s ++ "\""
  | f+1, .arr xs => "[" ++ pyJoinStr ", " (xs.map (renderJsonFuel f)) ++ "]"
  | f+1, .obj kvs =>
    "\x7b" ++
      pyJoinStr ", "
        (kvs.map (fun kv => "\"" ++ kv.1 ++ "\": " ++ renderJsonFuel f kv.2)) ++
      "\x7d"

/-- Written to the spec's words, for comparison with the source: "Live-data
fetchers: issue HTTP GET requests to a public sports statistics API and
return raw JSON" — the raw, unprocessed JSON payload of a successful
response, as a serialized value. -/
def spec_raw_json_render (j : Json) : String := renderJsonFuel 100 j

-- ------------------ helper lemmas ------------------

/-- `dropWhile` is idempotent. -/
lemma dropWhile_idem (p : Char → Bool) (l : List Char) :
    (l.dropWhile p).dropWhile p = l.dropWhile p := by
  induction l with
  | nil => rfl
  | cons c cs ih =>
    by_cases h : p c
    · rw [List.dropWhile_cons_of_pos h, ih]
    · rw [List.dropWhile_cons_of_neg h, List.dropWhile_cons_of_neg h]

/-- A prefix of a list without a leading `p`-element has none either. -/
lemma dropWhile_eq_self_of_prefix (p : Char → Bool) {l m : List Char}
    (hpre : m <+: l) (hl : l.dropWhile p = l) : m.dropWhile p = m := by
  cases m with
  | nil => rfl
  | cons x xs =>
    obtain ⟨t, ht⟩ := hpre
    by_cases h : p x
    · exfalso
      have h1 : l.dropWhile p = (xs ++ t).dropWhile p := by
        rw [← ht, List.cons_append, List.dropWhile_cons_of_pos h]
      have h2 : ((xs ++ t).dropWhile p).length ≤ (xs ++ t).length :=
        (List.dropWhile_sublist (l := xs ++ t) (p := p)).length_le
      have h3 : l.length = (xs ++ t).length + 1 := by
        rw [← ht]; simp
      rw [hl] at h1
      have h4 : l.length = ((xs ++ t).dropWhile p).length := by rw [← h1]
      omega
    · rw [List.dropWhile_cons_of_neg h]

/-- `pyStrip` is idempotent. -/
lemma pyStrip_idem (s : String) : pyStrip (pyStrip s) = pyStrip s := by
  unfold pyStrip
  dsimp only
  have hA := dropWhile_idem isPySpace s.data
  have hsuf : ((s.data.dropWhile isPySpace).reverse.dropWhile isPySpace) <:+
      (s.data.dropWhile isPySpace).reverse := List.dropWhile_suffix _
  have hpre : ((s.data.dropWhile isPySpace).reverse.dropWhile isPySpace).reverse <+:
      (s.data.dropWhile isPySpace) := by
    have := List.reverse_prefix.mpr hsuf
    rwa [List.reverse_reverse] at this
  have h1 : (((s.data.dropWhile isPySpace).reverse.dropWhile isPySpace).reverse).dropWhile
      isPySpace =
      ((s.data.dropWhile isPySpace).reverse.dropWhile isPySpace).reverse :=
    dropWhile_eq_self_of_prefix isPySpace hpre hA
  rw [h1, List.reverse_reverse, dropWhile_idem]

/-- A whitespace-only line strips to the empty string. -/
lemma pyStrip_empty_of_all_space {s : String}
    (h : ∀ c ∈ s.data, isPySpace c = true) : pyStrip s = "" := by
  unfold pyStrip
  have h1 : s.data.dropWhile isPySpace = [] :=
    List.dropWhile_eq_nil_iff.mpr (fun x hx => h x hx)
  rw [h1]
  rfl

/-- The empty string is not a sentinel word. -/
lemma sentinel_empty_false : pyLower "" ∉ sentinel_words := by
  decide

/-- The loop routes a line to the session-ending branch exactly when the
stripped, lowered line is one of the sentinel words. -/
lemma route_exit_iff (l : String) :
    repl_route l = .exitChat ↔ pyLower (pyStrip l) ∈ sentinel_words := by
  unfold repl_route
  by_cases h1 : pyStrip l = ""
  · rw [h1]
    simp [sentinel_empty_false]
  · by_cases h2 : pyLower (pyStrip l) ∈ sentinel_words
    · simp [h1, h2]
    · simp [h1, h2]

/-- The loop skips a line exactly when it strips to the empty string. -/
lemma route_skip_iff (l : String) :
    repl_route l = .skip ↔ pyStrip l = "" := by
  unfold repl_route
  by_cases h1 : pyStrip l = ""
  · simp [h1]
  · by_cases h2 : pyLower (pyStrip l) ∈ sentinel_words
    · simp [h1, h2]
    · simp [h1, h2]

/-- Every line is skipped, ends the session, or is sent stripped. -/
lemma route_cases (l : String) :
    repl_route l = .skip ∨ repl_route l = .exitChat ∨
      repl_route l = .send (pyStrip l) := by
  unfold repl_route
  by_cases h1 : pyStrip l = ""
  · simp [h1]
  · by_cases h2 : pyLower (pyStrip l) ∈ sentinel_words
    · simp [h1, h2]
    · simp [h1, h2]

/-- A successfully formatted ranking line starts with its 1-based rank. -/
lemma format_leader_line_shape (i : Nat) (l : Json) (line : String)
    (h : format_leader_line i l = .ok line) :
    ∃ r, line = toString i ++ ". " ++ r := by
  unfold format_leader_line at h
  cases hf : format_leader_fields l with
  | error e =>
    rw [hf] at h
    simp [Bind.bind, Except.bind] at h
  | ok f =>
    rw [hf] at h
    simp [Bind.bind, Except.bind, Pure.pure, Except.pure] at h
    exact ⟨_, h.symm⟩

/-- Successful ranking formatting yields one line per leader, each line
numbered consecutively starting from `start`. -/
lemma format_leader_lines_spec (ls : List Json) :
    ∀ (start : Nat) (lines : List String),
      format_leader_lines start ls = .ok lines →
      lines.length = ls.length ∧
      ∀ i (hi : i < lines.length),
        ∃ r, lines.get ⟨i, hi⟩ = toString (start + i) ++ ". " ++ r := by
  induction ls with
  | nil =>
    intro start lines h
    unfold format_leader_lines at h
    simp only [Except.ok.injEq] at h
    subst h
    exact ⟨rfl, fun i hi => absurd hi (by simp)⟩
  | cons l ls ih =>
    intro start lines h
    unfold format_leader_lines at h
    cases h1 : format_leader_line start l with
    | error e =>
      rw [h1] at h
      simp [Bind.bind, Except.bind] at h
    | ok line =>
      rw [h1] at h
      cases h2 : format_leader_lines (start + 1) ls with
      | error e =>
        rw [h2] at h
        simp [Bind.bind, Except.bind] at h
      | ok rest =>
        rw [h2] at h
        simp [Bind.bind, Except.bind, Pure.pure, Except.pure] at h
        subst h
        obtain ⟨hlen, hspec⟩ := ih (start + 1) rest h2
        refine ⟨by simp [hlen], fun i hi => ?_⟩
        cases i with
        | zero =>
          obtain ⟨r, hr⟩ := format_leader_line_shape start l line h1
          exact ⟨r, by simpa using hr⟩
        | succ j =>
          have hj : j < rest.length := by simpa using hi
          obtain ⟨r, hr⟩ := hspec j hj
          refine ⟨r, ?_⟩
          have hg : (line :: rest).get ⟨j + 1, hi⟩ = rest.get ⟨j, hj⟩ := rfl
          rw [hg, hr]
          have : start + 1 + j = start + (j + 1) := by omega
          rw [this]

/-- A line routed to `send` is not a sentinel line. -/
lemma route_send_not_sentinel {line : String} (h : repl_route line = .send (pyStrip line)) :
    pyLower (pyStrip line) ∉ sentinel_words := by
  intro hmem
  have := (route_exit_iff line).mpr hmem
  rw [h] at this
  exact ReplAction.noConfusion this

/-- A skipped line is not a sentinel line. -/
lemma route_skip_not_sentinel {line : String} (h : repl_route line = .skip) :
    pyLower (pyStrip line) ∉ sentinel_words := by
  rw [route_skip_iff] at h
  rw [h]
  exact sentinel_empty_false

/-- The loop ends via the sentinel branch iff some input line, stripped
and lowered, is a sentinel word. -/
lemma repl_run_exits_iff (llm : String → Except String String)
    (lines : List String) :
    (repl_run llm lines).2 = true ↔
      ∃ l, l ∈ lines ∧ pyLower (pyStrip l) ∈ sentinel_words := by
  induction lines with
  | nil => simp [repl_run]
  | cons line rest ih =>
    unfold repl_run
    rcases route_cases line with h | h | h
    · rw [h]
      constructor
      · intro hx
        obtain ⟨l, hl, hs⟩ := ih.mp hx
        exact ⟨l, List.mem_cons_of_mem _ hl, hs⟩
      · rintro ⟨l, hl, hs⟩
        rcases List.mem_cons.mp hl with rfl | hl
        · exact absurd hs (route_skip_not_sentinel h)
        · exact ih.mpr ⟨l, hl, hs⟩
    · rw [h]
      constructor
      · intro _
        exact ⟨line, List.mem_cons_self _ _, (route_exit_iff line).mp h⟩
      · intro _
        rfl
    · cases hm : llm (pyStrip line) with
      | ok r =>
        simp only [h, hm]
        rw [ih]
        constructor
        · rintro ⟨l, hl, hs⟩
          exact ⟨l, List.mem_cons_of_mem _ hl, hs⟩
        · rintro ⟨l, hl, hs⟩
          rcases List.mem_cons.mp hl with rfl | hl
          · exact absurd hs (route_send_not_sentinel h)
          · exact ⟨l, hl, hs⟩
      | error e =>
        simp only [h, hm]
        rw [ih]
        constructor
        · rintro ⟨l, hl, hs⟩
          exact ⟨l, List.mem_cons_of_mem _ hl, hs⟩
        · rintro ⟨l, hl, hs⟩
          rcases List.mem_cons.mp hl with rfl | hl
          · exact absurd hs (route_send_not_sentinel h)
          · exact ⟨l, hl, hs⟩

-- ------------------ claims ------------------

/-- C1: Every summarizer is total with silent defaults: for every JSON
payload — including payloads with missing or malformed fields — the
summarization of `get_nfl_scoreboard` and the summarization part of
`get_league_leaders` return a formatted string and never let an exception
escape, substituting the default strings "Team A", "Team B", "0",
"Status unknown", "Unknown Player", "N/A" for missing fields, or an error
string when processing raises. -/
theorem summarizers_total_with_silent_defaults :
    (∀ data : Json, ∃ s : String, get_nfl_scoreboard_summary data = .ok s) ∧
    (∀ (data : Json) (category : String) (limit : Int),
      ∃ s : String, get_league_leaders_summary data category limit = .ok s) ∧
    get_nfl_scoreboard_summary
        (.obj [("events", .arr [.obj [("competitions",
          .arr [.obj [("competitors", .arr [.obj [], .obj []])]])]])]) =
      .ok "🏈 Team A 0 @ Team B 0 - Status unknown" ∧
    get_nfl_scoreboard_summary (.obj [("events", .arr [.obj []])]) =
      .ok "🏈 Unknown matchup - Status unknown" ∧
    get_league_leaders_summary leadersPayload "passing yards" 10 =
      .ok ("📊 Top 10 NFL Leaders - Passing Yards\n" ++
        String.mk (List.replicate 50 '=') ++
        "\n1. Unknown Player (N/A): N/A\n2. Unknown Player (N/A): N/A") ∧
    get_nfl_scoreboard_summary (.num 7) =
      .ok ("Unexpected error processing scoreboard: " ++
        "object has no attribute get") := by
  refine ⟨?_, ?_, by rfl, by rfl, by rfl, by rfl⟩
  · intro data
    unfold get_nfl_scoreboard_summary
    cases scoreboard_body data with
    | ok s => exact ⟨s, rfl⟩
    | error e => exact ⟨_, rfl⟩
  · intro data category limit
    unfold get_league_leaders_summary
    cases leaders_body data category (normalize_category category)
        (leaders_clamp limit) with
    | ok s => exact ⟨s, rfl⟩
    | error e => exact ⟨_, rfl⟩

/-- C2: In the final iteration the decision of when to fetch live data is
made by the LLM via tool calling: the chat session is configured with the
four fetchers as tools, automatic function calling is enabled
(`disable=False`), and the loop's routing never keyword-matches the input
to choose a fetch — every line is skipped, ends the session, or is sent to
the LLM unchanged (stripped only). -/
theorem llm_tool_calling_not_keyword_routing :
    nfl_chat_config.tools =
      ["get_nfl_scoreboard", "get_league_leaders", "get_team_stats",
       "search_player_stats"] ∧
    nfl_chat_config.automatic_function_calling_disabled = false ∧
    ∀ s : String, repl_route s = .skip ∨ repl_route s = .exitChat ∨
      repl_route s = .send (pyStrip s) :=
  ⟨rfl, rfl, route_cases⟩

/-- C3: the canned responses of the fallback answer bank are used exactly
when the LLM call fails with a rate-limit error, and the rate-limited
answer comes from the static bank (or its fixed default). -/
theorem canned_responses_only_on_rate_limit :
    ∀ (outcome : LlmOutcome) (user : String),
      ((answer_with_fallback outcome user).2 = true ↔
        outcome = .rateLimited) ∧
      (answer_with_fallback .rateLimited user).1 = canned_response user ∧
      (canned_response user = default_canned ∨
        canned_response user ∈ fallback_bank.map Prod.snd) := by
  intro outcome user
  refine ⟨?_, rfl, ?_⟩
  · cases outcome <;> simp [answer_with_fallback]
  · unfold canned_response
    cases hf : fallback_bank.find? (fun kv => pyInStr kv.1 (pyLower user)) with
    | none => exact Or.inl rfl
    | some kv =>
      exact Or.inr (List.mem_map_of_mem Prod.snd (List.mem_of_find?_eq_some hf))

/-- C6: the keyword intent classifier maps each user input to exactly one
of the fixed set of data needs, and that classification determines which
live-data fetch (if any) is performed for the input. -/
theorem intent_classifier_fixed_needs :
    ∀ text : String,
      (∃! need : DataNeed, classify_intent text = need) ∧
      route_fetch text = fetch_for_need text (classify_intent text) ∧
      ((route_fetch text).isSome = true ↔ classify_intent text ≠ .noNeed) := by
  intro text
  refine ⟨⟨classify_intent text, rfl, fun y hy => hy.symm⟩, rfl, ?_⟩
  unfold route_fetch
  cases classify_intent text <;> simp [fetch_for_need]

/-- C7: on every iteration the loop reads one line, routes it, sends the
(stripped) user text and prints the reply (or an error message when the
LLM call raises, continuing the loop); it ends via the session-ending
branch exactly when some input line is a sentinel command, and no
non-sentinel input terminates it. -/
theorem repl_loop_iteration_and_exit :
    ∀ (llm : String → Except String String) (lines : List String),
      ((repl_run llm lines).2 = true ↔
        ∃ l, l ∈ lines ∧ pyLower (pyStrip l) ∈ sentinel_words) ∧
      (∀ line rest, repl_route line = .skip →
        repl_run llm (line :: rest) = repl_run llm rest) ∧
      (∀ line rest, repl_route line = .exitChat →
        repl_run llm (line :: rest) = ([], true)) ∧
      (∀ line rest m r, repl_route line = .send m → llm m = .ok r →
        repl_run llm (line :: rest) =
          (.reply r :: (repl_run llm rest).1, (repl_run llm rest).2)) ∧
      (∀ line rest m e, repl_route line = .send m → llm m = .error e →
        repl_run llm (line :: rest) =
          (.errorMsg e :: (repl_run llm rest).1, (repl_run llm rest).2)) := by
  intro llm lines
  refine ⟨repl_run_exits_iff llm lines, ?_, ?_, ?_, ?_⟩
  · intro line rest h
    simp only [repl_run, h]
  · intro line rest h
    simp only [repl_run, h]
  · intro line rest m r h hm
    simp only [repl_run, h, hm]
  · intro line rest m e h hm
    simp only [repl_run, h, hm]

/-- Witness for C7 at concrete inputs. -/
theorem repl_loop_iteration_and_exit_witness :
    (repl_run llmEcho ["hello there", "quit"]).2 = true ∧
    repl_run llmEcho ["hi"] = ([.reply "ok:hi"], false) := by
  constructor
  · exact (repl_loop_iteration_and_exit llmEcho ["hello there", "quit"]).1.mpr
      ⟨"quit", by decide, by decide⟩
  · have h := (repl_loop_iteration_and_exit llmEcho ["hi"]).2.2.2.1 "hi" []
      "hi" "ok:hi" (by decide) (by rfl)
    simpa using h

/-- C9: with the `API_KEY` environment variable unset or empty, the
program raises `ValueError` at startup, before the chat session exists or
any message is processed; with it set non-empty, the LLM client is
initialized with exactly that key. -/
theorem api_key_checked_at_startup :
    (∀ (llm : String → Except String String) (inputs : List String),
      nfl_program none llm inputs =
        .error "❌ Missing API_KEY in .env file.") ∧
    (∀ (llm : String → Except String String) (inputs : List String),
      nfl_program (some "") llm inputs =
        .error "❌ Missing API_KEY in .env file.") ∧
    (∀ k : String, k ≠ "" → load_api_key (some k) = .ok ⟨k⟩) := by
  refine ⟨fun llm inputs => rfl, fun llm inputs => rfl, fun k hk => ?_⟩
  simp only [load_api_key]
  rw [if_neg hk]

/-- Witness for C9 at a concrete key. -/
theorem api_key_checked_at_startup_witness :
    load_api_key (some "test-key") = .ok ⟨"test-key"⟩ :=
  api_key_checked_at_startup.2.2 "test-key" (by decide)

/-- C10: input is stripped before any other handling; a whitespace-only
line is skipped, sending nothing and printing nothing; the session-ending
check is case-insensitive over exactly the four words "exit", "quit",
"bye", "goodbye". -/
theorem input_stripped_skip_and_sentinel :
    ∀ raw : String,
      repl_route raw = repl_route (pyStrip raw) ∧
      ((∀ c ∈ raw.data, isPySpace c = true) → repl_route raw = .skip) ∧
      (∀ (llm : String → Except String String) (rest : List String),
        repl_route raw = .skip →
          repl_run llm (raw :: rest) = repl_run llm rest) ∧
      (repl_route raw = .exitChat ↔ pyLower (pyStrip raw) ∈ sentinel_words) ∧
      sentinel_words = ["exit", "quit", "bye", "goodbye"] := by
  intro raw
  refine ⟨?_, ?_, ?_, route_exit_iff raw, rfl⟩
  · unfold repl_route
    rw [pyStrip_idem]
  · intro h
    rw [route_skip_iff, pyStrip_empty_of_all_space h]
  · intro llm rest h
    simp only [repl_run, h]

/-- Witness for C10 at concrete inputs. -/
theorem input_stripped_skip_and_sentinel_witness :
    repl_route " \t " = .skip ∧ repl_route "  EXIT  " = .exitChat := by
  constructor
  · exact (input_stripped_skip_and_sentinel " \t ").2.1 (by decide)
  · exact (input_stripped_skip_and_sentinel "  EXIT  ").2.2.2.1.mpr (by decide)

/-- C8: `get_league_leaders` clamps the effective limit to
`min(max(1, limit), 25)`, so it always lies between 1 and 25; the body
slices the leader list to that many entries, and the formatted ranking
contains at most that many lines, numbered consecutively from 1. -/
theorem league_leaders_limit_clamp_and_numbering :
    ∀ limit : Int,
      leaders_clamp limit = min (max 1 limit) 25 ∧
      1 ≤ leaders_clamp limit ∧ leaders_clamp limit ≤ 25 ∧
      (∀ leaders : List Json,
        (pySlice (.arr leaders) (leaders_clamp limit).toNat >>= pyIter) =
          .ok (leaders.take (leaders_clamp limit).toNat)) ∧
      ∀ (leaders : List Json) (lines : List String),
        format_leader_lines 1 (leaders.take (leaders_clamp limit).toNat) =
          .ok lines →
        lines.length ≤ (leaders_clamp limit).toNat ∧
        ∀ i (hi : i < lines.length),
          ∃ r, lines.get ⟨i, hi⟩ = toString (i + 1) ++ ". " ++ r := by
  intro limit
  refine ⟨rfl, le_min (le_max_left 1 limit) (by norm_num), min_le_right _ _,
    fun leaders => rfl, fun leaders lines h => ?_⟩
  obtain ⟨hlen, hspec⟩ := format_leader_lines_spec _ 1 lines h
  constructor
  · rw [hlen, List.length_take]
    exact min_le_left _ _
  · intro i hi
    obtain ⟨r, hr⟩ := hspec i hi
    rw [Nat.add_comm 1 i] at hr
    exact ⟨r, hr⟩

/-- Witness for C8 at a concrete limit and leader list. -/
theorem league_leaders_limit_clamp_and_numbering_witness :
    (["1. Unknown Player (N/A): N/A",
      "2. Unknown Player (N/A): N/A"] : List String).length ≤
      (leaders_clamp 30).toNat :=
  ((league_leaders_limit_clamp_and_numbering 30).2.2.2.2
    [Json.obj [], Json.obj []] _ (by rfl)).1

/-- C4 counterexample: in a network whose teams payload contains a team
matching the query, `get_team_stats` issues two HTTP GET requests in a
single invocation (the teams list, then the team-detail endpoint), not at
most one. -/
theorem single_get_per_fetcher_counterexample :
    (get_team_stats_run teamNetPatriots "Patriots").2 = 2 ∧
    ¬ (get_team_stats_run teamNetPatriots "Patriots").2 ≤ 1 := by
  constructor
  · rfl
  · decide

/-- C4 (amended): `get_nfl_scoreboard` and `get_league_leaders` issue
exactly one GET request per invocation; `get_team_stats` and
`search_player_stats` issue at most two (a second, detail request when the
first payload contains a match). -/
theorem fetchers_request_count_bounds :
    ∀ (net : Net) (category team player : String) (limit : Int),
      (get_nfl_scoreboard_run net).2 = 1 ∧
      (get_league_leaders_run net category limit).2 = 1 ∧
      (get_team_stats_run net team).2 ≤ 2 ∧
      (search_player_stats_run net player).2 ≤ 2 := by
  intro net category team player limit
  refine ⟨rfl, rfl, ?_, ?_⟩
  · unfold get_team_stats_run
    repeat' split
    all_goals first
    | exact Nat.le.step Nat.le.refl
    | exact Nat.le.refl
  · unfold search_player_stats_run
    repeat' split
    all_goals first
    | exact Nat.le.step Nat.le.refl
    | exact Nat.le.refl

/-- C5 counterexample: on a successful scoreboard request the value
returned by `get_nfl_scoreboard` is the formatted summary text, not the
raw (serialized) JSON payload of the response. -/
theorem fetchers_return_raw_json_counterexample :
    sbNetOneGame scoreboard_url [] = .resp ⟨200, some sbPayload⟩ ∧
    (get_nfl_scoreboard_run sbNetOneGame).1 =
      "🏈 Team A 0 @ Team B 0 - Status unknown" ∧
    (get_nfl_scoreboard_run sbNetOneGame).1 ≠ spec_raw_json_render sbPayload := by
  refine ⟨by rfl, by rfl, ?_⟩
  decide

/-- C5 (amended): the fetchers issue HTTP GET requests to the sports API
and, on a successful request, return the formatted summary of the decoded
payload — fetching and summarizing are fused in one function — rather
than the raw JSON. -/
theorem fetchers_fetch_and_summarize :
    ∀ (net : Net) (st : Int) (data : Json) (category : String) (limit : Int),
      (net scoreboard_url [] = .resp ⟨st, some data⟩ → st < 400 →
        get_nfl_scoreboard_summary data = .ok (get_nfl_scoreboard_run net).1) ∧
      (net leaders_url [("limit", toString (leaders_clamp limit))] =
          .resp ⟨st, some data⟩ → st < 400 →
        get_league_leaders_summary data category limit =
          .ok (get_league_leaders_run net category limit).1) := by
  intro net st data category limit
  constructor
  · intro h hst
    have hlt : ¬ (400 : Int) ≤ st := by omega
    simp only [get_nfl_scoreboard_run, h, hlt, if_false, ite_false]
    unfold get_nfl_scoreboard_summary
    cases scoreboard_body data <;> rfl
  · intro h hst
    have hlt : ¬ (400 : Int) ≤ st := by omega
    simp only [get_league_leaders_run, h, hlt, if_false, ite_false]
    unfold get_league_leaders_summary
    cases leaders_body data category (normalize_category category)
        (leaders_clamp limit) <;> rfl

/-- Witness for the amended C5 at a concrete network. -/
theorem fetchers_fetch_and_summarize_witness :
    get_nfl_scoreboard_summary sbPayload =
      .ok (get_nfl_scoreboard_run sbNetOneGame).1 :=
  (fetchers_fetch_and_summarize sbNetOneGame 200 sbPayload "x" 1).1
    (by rfl) (by norm_num)
